import Mathlib

/-!
Shallow embedding of the janus-p2p-rs plugin core (src/lib.rs): the session
and room registries, session teardown, and the message-dispatch pipeline.
Pure data is modelled directly; the global registries (the ROOMS hash map and
the SESSIONS vector) are modelled as explicit state threaded through the
operations; panics (unwrap, expect) are modelled as Option results where
none stands for a panic. Weak references to sessions are modelled by the
session handle together with the resolution outcome at the moment of use.
-/

namespace JanusP2P

/-- Json models serde_json Value: the opaque structured payloads moved
through the dispatch pipeline. Objects are association lists of fields. -/
inductive Json where
  | null : Json
  | bool (b : Bool) : Json
  | num (n : Int) : Json
  | str (s : String) : Json
  | obj (fields : List (String × Json)) : Json

/-- Key used by the ok marker in response payloads. -/
def okKey : String := "ok"

/-- Key used by failure payloads for the error description. -/
def errorKey : String := "error"

/-- Field lookup in a Json object, first match wins, as in a serde_json map. -/
def lookupField : List (String × Json) → String → Option Json
  | [], _ => none
  | p :: rest, key => if p.1 = key then some p.2 else lookupField rest key

/-- Embeds json_obj.entry(key).or_insert(v): leave the map unchanged when the
key is present, otherwise add the binding. -/
def entry_or_insert (fields : List (String × Json)) (key : String) (v : Json) :
    List (String × Json) :=
  match lookupField fields key with
  | some _ => fields
  | none => fields ++ [(key, v)]

/-- Embeds Value::as_object_mut: some fields on an object, none (a panic at
the unwrap call site) otherwise. -/
def Json.as_object_mut : Json → Option (List (String × Json))
  | .obj fields => some fields
  | _ => none

/-- RoomId from src/lib.rs: an opaque numeric identifier. -/
structure RoomId where
  val : Nat
deriving DecidableEq, Repr

/-- Session handles: the opaque host handle identifying a session, modelled
as a number. A weak reference to a session is its handle; it resolves only
while the session is alive. -/
abbrev Handle := Nat

/-- Room from src/lib.rs: the id and the two role slots, each an optional
non-owning reference to a session. -/
structure Room where
  id : RoomId
  caller : Option Handle
  callee : Option Handle
deriving DecidableEq, Repr

/-- Embeds Room::new: a room with both slots empty. -/
def Room.new (id : RoomId) : Room :=
  { id := id, callee := none, caller := none }

/-- Embeds Room::is_empty: both role slots unoccupied. -/
def Room.is_empty (r : Room) : Bool :=
  r.caller.isNone && r.callee.isNone

/-- RoomMember from src/lib.rs: a session joining in one of the two roles. -/
inductive RoomMember where
  | callee (s : Handle) : RoomMember
  | caller (s : Handle) : RoomMember
deriving DecidableEq, Repr

/-- Embeds Room::add_member: store the member reference in the slot for its
role, unconditionally overwriting the slot. -/
def Room.add_member (r : Room) (member : RoomMember) : Room :=
  match member with
  | .callee s => { r with callee := some s }
  | .caller s => { r with caller := some s }

/-- SessionState from src/lib.rs. -/
structure SessionState where
  room_id : Option RoomId
  initiator : Option Bool
deriving DecidableEq, Repr

/-- A live session as registered in the SESSIONS vector: its host handle and
its current state. -/
structure Session where
  handle : Handle
  state : SessionState
deriving DecidableEq, Repr

/-- The ROOMS registry, a hash map from RoomId to Room, modelled as an
association list observed through lookupRoom. -/
abbrev RoomTable := List (RoomId × Room)

/-- Lookup in the ROOMS map, first match wins. -/
def lookupRoom : RoomTable → RoomId → Option Room
  | [], _ => none
  | p :: rest, rid => if p.1 = rid then some p.2 else lookupRoom rest rid

/-- Embeds HashMap::remove on ROOMS: drop every binding of the key. -/
def removeRoom : RoomTable → RoomId → RoomTable
  | [], _ => []
  | p :: rest, rid => if p.1 = rid then removeRoom rest rid else p :: removeRoom rest rid

/-- Embeds HashMap::insert on ROOMS: bind the key to the room, replacing any
previous binding. -/
def insertRoom (rooms : RoomTable) (rid : RoomId) (room : Room) : RoomTable :=
  (rid, room) :: removeRoom rooms rid

/-- Embeds Room::is_new: the id is not bound in ROOMS. -/
def Room.is_new (rooms : RoomTable) (id : RoomId) : Bool :=
  (lookupRoom rooms id).isNone

/-- Embeds Room::create: insert the room into ROOMS under its id. -/
def Room.create (rooms : RoomTable) (this : Room) : RoomTable :=
  insertRoom rooms this.id this

/-- The two process-wide registries: ROOMS and SESSIONS. -/
structure Registries where
  rooms : RoomTable
  sessions : List Session
deriving DecidableEq, Repr

/-- Embeds the SESSIONS.retain line of destroy_session (the spec calls it
unregister_by_handle): keep exactly the entries whose handle differs. -/
def unregister_by_handle : List Session → Handle → List Session
  | [], _ => []
  | s :: rest, h =>
    if s.handle = h then unregister_by_handle rest h else s :: unregister_by_handle rest h

/-- Embeds create_session: a fresh session starts with no room and no role
and is appended to SESSIONS. ROOMS is untouched. -/
def create_session (st : Registries) (h : Handle) : Registries :=
  { st with sessions := st.sessions ++ [{ handle := h, state := { room_id := none, initiator := none } }] }

/-- The slot-clearing match of destroy_session: the caller slot is cleared
when initiator is some true, the callee slot when it is some false or none. -/
def clearedRoom (room : Room) (initiator : Option Bool) : Room :=
  match initiator with
  | some true => { room with caller := none }
  | _ => { room with callee := none }

/-- Embeds destroy_session: read the stored room id (unwrap panics when it is
none), fetch the room (Room::get_mut panics when absent), remove the session
from SESSIONS by handle, clear the slot matching the stored role (caller when
initiator is some true, callee otherwise), and remove the room from ROOMS
exactly when both slots are then empty. none models a panic. -/
def destroy_session (st : Registries) (s : Session) : Option Registries :=
  match s.state.room_id with
  | none => none
  | some rid =>
    match lookupRoom st.rooms rid with
    | none => none
    | some room =>
      let room1 := clearedRoom room s.state.initiator
      some { rooms :=
               if room1.is_empty then removeRoom st.rooms rid
               else insertRoom st.rooms rid room1,
             sessions := unregister_by_handle st.sessions s.handle }

/-- Modelled from the spec: the join handler, which lives in the missing
messages module, executed as the spec describes with the registry primitives
of src/lib.rs — on a join for room rid, create an empty room first when the
id is new (Room::is_new, Room::create), then store the joining session in the
slot of the role the processor assigned (Room::add_member), and record the
room id and role in the session state. All of it runs on the single worker,
so the step is observed atomically. -/
def joinOp (st : Registries) (h : Handle) (rid : RoomId) (isCaller : Bool) : Registries :=
  let rooms1 := if Room.is_new st.rooms rid then Room.create st.rooms (Room.new rid) else st.rooms
  match lookupRoom rooms1 rid with
  | none => st
  | some room =>
    let member := if isCaller then RoomMember.caller h else RoomMember.callee h
    { rooms := insertRoom rooms1 rid (room.add_member member),
      sessions := st.sessions.map (fun s =>
        if s.handle = h then
          { s with state := { room_id := some rid, initiator := some isCaller } }
        else s) }

/-- Reachable registry states: start from empty registries; steps are session
creation, a join processed by the worker, and a teardown that does not panic.
Teardown is allowed for an arbitrary session value, which only enlarges the
reachable set. -/
inductive Reachable : Registries → Prop where
  | init : Reachable { rooms := [], sessions := [] }
  | create (st : Registries) (h : Handle) : Reachable st → Reachable (create_session st h)
  | join (st : Registries) (h : Handle) (rid : RoomId) (c : Bool) :
      Reachable st → Reachable (joinOp st h rid c)
  | destroy (st st2 : Registries) (s : Session) :
      Reachable st → destroy_session st s = some st2 → Reachable st2

/-- Response from the messages module as consumed by handle_message_async:
four variants, each carrying the target peer reference and the response
payload. The weak peer reference is modelled by the outcome of the single
upgrade call made on it: some handle when the peer is alive, none when it is
gone. -/
inductive Response where
  | join (peer : Option Handle) (payload : Json) : Response
  | call (peer : Option Handle) (payload : Json) : Response
  | accept (peer : Option Handle) (payload : Json) : Response
  | candidate (peer : Option Handle) (payload : Json) : Response

/-- The peer reference carried by a response, common to all four variants. -/
def Response.peerRef : Response → Option Handle
  | .join p _ | .call p _ | .accept p _ | .candidate p _ => p

/-- The payload carried by a response, common to all four variants. -/
def Response.payload : Response → Json
  | .join _ pl | .call _ pl | .accept _ pl | .candidate _ pl => pl

/-- Result of messages::process, the external signaling processor: a routed
response or a domain error with its description string. -/
inductive ProcessResult where
  | ok (resp : Response) : ProcessResult
  | err (description : String) : ProcessResult

/-- Destination of a push_response call: the resolved target peer, or the
originating session of the envelope. -/
inductive PushTarget where
  | peer (h : Handle) : PushTarget
  | origin (h : Handle) : PushTarget

/-- Observable outcome of one handle_message_async run.
droppedForDestroyedSession: the session reference failed to upgrade, the
message was dropped with a warning. pushed: push_response was invoked with
the given target, transaction id and payload. peerHasGoneError: the function
returned Err(messages::Error::PeerHasGone) without calling push_response. -/
inductive DispatchOutcome where
  | droppedForDestroyedSession : DispatchOutcome
  | pushed (target : PushTarget) (transaction : Nat) (payload : Json) : DispatchOutcome
  | peerHasGoneError : DispatchOutcome

/-- Embeds handle_message_async. Parameters stand for the envelope and the
environment: sessionUpgrade is the outcome of upgrading the weak session
reference, transaction the transaction id, message the optional payload of
the envelope, and process the external signaling processor. none models a
panic (the unwrap of a none message, or of as_object_mut on a non-object
success payload). -/
def handle_message_async (sessionUpgrade : Option Handle) (transaction : Nat)
    (message : Option Json) (process : Json → ProcessResult) : Option DispatchOutcome :=
  match sessionUpgrade with
  | none => some DispatchOutcome.droppedForDestroyedSession
  | some origin =>
    match message with
    | none => none
    | some msg =>
      match process msg with
      | .ok resp =>
        match resp with
        | .join peer payload | .call peer payload
        | .accept peer payload | .candidate peer payload =>
          match peer with
          | some peerHandle =>
            match payload.as_object_mut with
            | none => none
            | some fields =>
              some (DispatchOutcome.pushed (PushTarget.peer peerHandle) transaction
                (Json.obj (entry_or_insert fields okKey (Json.bool true))))
          | none => some DispatchOutcome.peerHasGoneError
      | .err d =>
        some (DispatchOutcome.pushed (PushTarget.origin origin) transaction
          (Json.obj [(okKey, Json.bool false), (errorKey, Json.str d)]))

/-- Whether a handle_message_async run invoked push_response at all. -/
def pushesResponse : Option DispatchOutcome → Bool
  | some (DispatchOutcome.pushed _ _ _) => true
  | _ => false

/-- The dispatch stage with the registries threaded through: the body of
handle_message_async after messages::process has returned performs no
operation on ROOMS or SESSIONS, so the registry state passes through
unchanged alongside the outcome. -/
def dispatch_step (st : Registries) (sessionUpgrade : Option Handle) (transaction : Nat)
    (message : Option Json) (process : Json → ProcessResult) :
    Option (DispatchOutcome × Registries) :=
  (handle_message_async sessionUpgrade transaction message process).map (fun o => (o, st))

/-- Sample error description used by concrete instantiations. -/
def sampleError : String := "invalid signal"

/-! Helper lemmas about the registry maps and the payload helpers. -/

theorem lookupRoom_removeRoom (m : RoomTable) (rid rid2 : RoomId) :
    lookupRoom (removeRoom m rid) rid2 = if rid2 = rid then none else lookupRoom m rid2 := by
  induction m with
  | nil => simp [removeRoom, lookupRoom]
  | cons p rest ih =>
    by_cases h2 : rid2 = rid
    · subst h2
      by_cases h1 : p.1 = rid2 <;> simp [removeRoom, lookupRoom, h1, ih]
    · by_cases h1 : p.1 = rid
      · have h3 : rid ≠ rid2 := fun hc => h2 hc.symm
        simp [removeRoom, lookupRoom, h1, h3, ih, h2]
      · by_cases h3 : p.1 = rid2 <;> simp [removeRoom, lookupRoom, h1, h3, ih, h2]

theorem lookupRoom_insertRoom (m : RoomTable) (rid rid2 : RoomId) (room : Room) :
    lookupRoom (insertRoom m rid room) rid2 =
      if rid2 = rid then some room else lookupRoom m rid2 := by
  by_cases h : rid2 = rid
  · subst h; simp [insertRoom, lookupRoom]
  · have h2 : rid ≠ rid2 := fun hc => h hc.symm
    simp [insertRoom, lookupRoom, h2, lookupRoom_removeRoom, h]

theorem add_member_not_empty (r : Room) (m : RoomMember) :
    (r.add_member m).is_empty = false := by
  cases m <;> simp [Room.add_member, Room.is_empty]

theorem lookupRoom_joinOp (st : Registries) (h : Handle) (rid : RoomId) (c : Bool)
    (rid2 : RoomId) :
    lookupRoom (joinOp st h rid c).rooms rid2 =
      if rid2 = rid then
        some (((lookupRoom st.rooms rid).getD (Room.new rid)).add_member
          (if c then RoomMember.caller h else RoomMember.callee h))
      else lookupRoom st.rooms rid2 := by
  cases hl : lookupRoom st.rooms rid with
  | some room =>
    have hnew : Room.is_new st.rooms rid = false := by simp [Room.is_new, hl]
    simp [joinOp, hnew, hl, lookupRoom_insertRoom]
  | none =>
    have hnew : Room.is_new st.rooms rid = true := by simp [Room.is_new, hl]
    have hcr : lookupRoom (Room.create st.rooms (Room.new rid)) rid = some (Room.new rid) := by
      simp [Room.create, Room.new, lookupRoom_insertRoom]
    by_cases h2 : rid2 = rid <;>
      simp [joinOp, hnew, hcr, lookupRoom_insertRoom, Room.create, Room.new, h2, hl]

theorem joinOp_handles (st : Registries) (h : Handle) (rid : RoomId) (c : Bool) :
    (joinOp st h rid c).sessions.map Session.handle = st.sessions.map Session.handle := by
  have key : ∀ (l : List Session),
      (l.map (fun s =>
        if s.handle = h then
          { s with state := { room_id := some rid, initiator := some c } }
        else s)).map Session.handle = l.map Session.handle := by
    intro l
    rw [List.map_map]
    apply List.map_congr_left
    intro s _
    by_cases hs : s.handle = h <;> simp [hs]
  simp only [joinOp]
  cases hl : lookupRoom
      (if Room.is_new st.rooms rid then Room.create st.rooms (Room.new rid) else st.rooms) rid with
  | none => rfl
  | some room => exact key st.sessions

theorem mem_unregister_by_handle (l : List Session) (h : Handle) (s : Session) :
    s ∈ unregister_by_handle l h ↔ s ∈ l ∧ s.handle ≠ h := by
  induction l with
  | nil => simp [unregister_by_handle]
  | cons x rest ih =>
    by_cases hx : x.handle = h
    · simp only [unregister_by_handle, if_pos hx, ih, List.mem_cons]
      constructor
      · exact fun ⟨hm, hne⟩ => ⟨Or.inr hm, hne⟩
      · rintro ⟨hm | hm, hne⟩
        · exact absurd (hm ▸ hx) hne
        · exact ⟨hm, hne⟩
    · simp only [unregister_by_handle, if_neg hx, List.mem_cons, ih]
      constructor
      · rintro (hm | ⟨hm, hne⟩)
        · exact ⟨Or.inl hm, hm ▸ hx⟩
        · exact ⟨Or.inr hm, hne⟩
      · rintro ⟨hm | hm, hne⟩
        · exact Or.inl hm
        · exact Or.inr ⟨hm, hne⟩

theorem unregister_by_handle_noop (l : List Session) (h : Handle)
    (hno : ∀ s ∈ l, s.handle ≠ h) : unregister_by_handle l h = l := by
  induction l with
  | nil => rfl
  | cons x rest ih =>
    have hx : x.handle ≠ h := hno x (List.mem_cons_self x rest)
    simp only [unregister_by_handle, if_neg hx]
    rw [ih (fun s hs => hno s (List.mem_cons_of_mem x hs))]

theorem unregister_by_handle_idem (l : List Session) (h : Handle) :
    unregister_by_handle (unregister_by_handle l h) h = unregister_by_handle l h :=
  unregister_by_handle_noop _ h
    (fun s hs => ((mem_unregister_by_handle l h s).mp hs).2)

theorem lookupField_append_self (fields : List (String × Json)) (key : String) (v : Json)
    (h : lookupField fields key = none) :
    lookupField (fields ++ [(key, v)]) key = some v := by
  induction fields with
  | nil => simp [lookupField]
  | cons p rest ih =>
    by_cases hp : p.1 = key
    · simp [lookupField, hp] at h
    · simp only [lookupField, if_neg hp] at h
      simp only [List.cons_append, lookupField, if_neg hp]
      exact ih h

theorem lookupField_append_other (fields : List (String × Json)) (key key2 : String) (v : Json)
    (h : key ≠ key2) :
    lookupField (fields ++ [(key, v)]) key2 = lookupField fields key2 := by
  induction fields with
  | nil => simp [lookupField, h]
  | cons p rest ih => by_cases hp : p.1 = key2 <;> simp [lookupField, hp, ih]

theorem entry_or_insert_of_present (fields : List (String × Json)) (key : String)
    (v w : Json) (h : lookupField fields key = some w) :
    entry_or_insert fields key v = fields := by
  simp [entry_or_insert, h]

theorem lookupField_entry_or_insert_self (fields : List (String × Json)) (key : String)
    (v : Json) :
    lookupField (entry_or_insert fields key v) key =
      some ((lookupField fields key).getD v) := by
  cases h : lookupField fields key with
  | some w => rw [entry_or_insert_of_present fields key v w h, h]; rfl
  | none => simp [entry_or_insert, h, lookupField_append_self]

theorem lookupField_entry_or_insert_other (fields : List (String × Json)) (key key2 : String)
    (v : Json) (h : key2 ≠ key) :
    lookupField (entry_or_insert fields key v) key2 = lookupField fields key2 := by
  unfold entry_or_insert
  cases hl : lookupField fields key with
  | some w => rfl
  | none => exact lookupField_append_other fields key key2 v (fun hc => h hc.symm)

/-! Claim theorems. -/

/-- Claim C1, counterexample to the claim as stated: with a resolving
session, a successful processing outcome and a vanished target peer,
handle_message_async returns the PeerHasGone error and push_response is
never invoked, so no failure payload is routed to the originating session
via ResponsePublisher. -/
theorem peer_gone_no_push_counterexample :
    (handle_message_async (some 1) 5 (some (Json.obj []))
        (fun _ => ProcessResult.ok (Response.call none (Json.obj []))) =
      some DispatchOutcome.peerHasGoneError) ∧
    (pushesResponse (handle_message_async (some 1) 5 (some (Json.obj []))
        (fun _ => ProcessResult.ok (Response.call none (Json.obj [])))) = false) :=
  ⟨rfl, rfl⟩

/-- Claim C1 (amended): for every dequeued envelope whose session reference
resolves, whose signaling processing succeeds and whose target peer
reference fails to resolve, handle_message_async publishes nothing; it
returns the PeerHasGone error, which the worker loop in init merely logs
before dropping the envelope, and the registries pass through the dispatch
stage unchanged. -/
theorem peer_gone_error_logged_not_pushed (st : Registries) (origin : Handle) (tx : Nat)
    (msg : Json) (process : Json → ProcessResult) (resp : Response)
    (hp : process msg = ProcessResult.ok resp)
    (hpeer : resp.peerRef = none) :
    (handle_message_async (some origin) tx (some msg) process =
      some DispatchOutcome.peerHasGoneError) ∧
    (pushesResponse (handle_message_async (some origin) tx (some msg) process) = false) ∧
    (dispatch_step st (some origin) tx (some msg) process =
      some (DispatchOutcome.peerHasGoneError, st)) := by
  have hmain : handle_message_async (some origin) tx (some msg) process =
      some DispatchOutcome.peerHasGoneError := by
    cases resp <;> simp_all [handle_message_async, Response.peerRef]
  exact ⟨hmain, by rw [hmain]; rfl, by simp [dispatch_step, hmain]⟩

/-- Claim C1, witness for the amended theorem at a concrete envelope. -/
theorem peer_gone_error_logged_not_pushed_witness :
    dispatch_step ⟨[], []⟩ (some 1) 5 (some (Json.obj []))
        (fun _ => ProcessResult.ok (Response.accept none (Json.obj []))) =
      some (DispatchOutcome.peerHasGoneError, ⟨[], []⟩) :=
  (peer_gone_error_logged_not_pushed ⟨[], []⟩ 1 5 (Json.obj [])
    (fun _ => ProcessResult.ok (Response.accept none (Json.obj [])))
    (Response.accept none (Json.obj [])) rfl rfl).2.2

/-- Claim C2 (code bug): destroy_session on a session whose state has no
room association unwraps the none room id and panics, for every registry
state, instead of leaving RoomTable unchanged and removing exactly that
session from SessionDirectory as the spec states. The none result is the
panic marker of the embedding. -/
theorem destroy_session_roomless_panics (st : Registries) (s : Session)
    (h : s.state.room_id = none) : destroy_session st s = none := by
  simp [destroy_session, h]

/-- Claim C2, witness: a session fresh out of create_session (no room, no
role) makes destroy_session panic. -/
theorem destroy_session_roomless_panics_witness :
    destroy_session (create_session ⟨[], []⟩ 1) ⟨1, ⟨none, none⟩⟩ = none :=
  destroy_session_roomless_panics (create_session ⟨[], []⟩ 1) ⟨1, ⟨none, none⟩⟩ rfl

/-- Claim C3: in every reachable registry state, a room is present in
RoomTable iff at least one of its role slots is occupied. Presence in the
table is the only way a room exists, so the invariant reads: every room
bound in ROOMS has at least one occupied slot, after every operation
(session creation, the join step, teardown). -/
theorem rooms_present_iff_occupied (st : Registries) (hst : Reachable st) :
    ∀ rid room, lookupRoom st.rooms rid = some room → room.is_empty = false := by
  induction hst with
  | init => intro rid room h; simp [lookupRoom] at h
  | create st2 h2 hr ih => intro rid room h; exact ih rid room h
  | join st2 h2 rid2 c hr ih =>
    intro rid room h
    rw [lookupRoom_joinOp] at h
    by_cases he : rid = rid2
    · rw [if_pos he] at h
      cases h
      exact add_member_not_empty _ _
    · rw [if_neg he] at h
      exact ih rid room h
  | destroy st2 st3 s hr hd ih =>
    intro rid room h
    rcases hrid : s.state.room_id with _ | rid0
    · simp [destroy_session, hrid] at hd
    · rcases hroom : lookupRoom st2.rooms rid0 with _ | room0
      · simp [destroy_session, hrid, hroom] at hd
      · simp only [destroy_session, hrid, hroom, Option.some.injEq] at hd
        subst hd
        simp only at h
        by_cases hE : (clearedRoom room0 s.state.initiator).is_empty
        · rw [if_pos hE, lookupRoom_removeRoom] at h
          by_cases he : rid = rid0
          · rw [if_pos he] at h; cases h
          · rw [if_neg he] at h; exact ih rid room h
        · rw [if_neg hE, lookupRoom_insertRoom] at h
          by_cases he : rid = rid0
          · rw [if_pos he] at h
            cases h
            exact Bool.eq_false_iff.mpr hE
          · rw [if_neg he] at h; exact ih rid room h

/-- Claim C3, witness: the reachable state where session 1 created and
joined room 42 as caller binds room 42 to a record with an occupied caller
slot, and that record is not empty. -/
theorem rooms_present_iff_occupied_witness :
    (⟨⟨42⟩, some 1, none⟩ : Room).is_empty = false :=
  rooms_present_iff_occupied _
    (Reachable.join _ 1 ⟨42⟩ true (Reachable.create _ 1 Reachable.init)) ⟨42⟩ _ rfl

/-- Claim C4: teardown of a session with a stored room id, when that room is
present, removes exactly the session from SessionDirectory by handle, leaves
every other room binding unchanged, clears exactly the slot matching the
stored role (caller when initiator is some true, callee otherwise, also when
the role is unset), and removes the room from RoomTable exactly when both
slots are then unoccupied. -/
theorem destroy_session_clears_matching_slot (st : Registries) (s : Session)
    (rid : RoomId) (room : Room)
    (h1 : s.state.room_id = some rid) (h2 : lookupRoom st.rooms rid = some room) :
    ∃ st2, destroy_session st s = some st2 ∧
      st2.sessions = unregister_by_handle st.sessions s.handle ∧
      (∀ rid2, rid2 ≠ rid → lookupRoom st2.rooms rid2 = lookupRoom st.rooms rid2) ∧
      (s.state.initiator = some true →
        lookupRoom st2.rooms rid =
          if room.callee.isNone then none else some { room with caller := none }) ∧
      (s.state.initiator ≠ some true →
        lookupRoom st2.rooms rid =
          if room.caller.isNone then none else some { room with callee := none }) := by
  have hds : destroy_session st s = some
      { rooms := if (clearedRoom room s.state.initiator).is_empty
                   then removeRoom st.rooms rid
                   else insertRoom st.rooms rid (clearedRoom room s.state.initiator),
        sessions := unregister_by_handle st.sessions s.handle } := by
    simp [destroy_session, h1, h2]
  refine ⟨_, hds, rfl, ?_, ?_, ?_⟩
  · intro rid2 hne
    by_cases hE : (clearedRoom room s.state.initiator).is_empty <;>
      simp [hE, lookupRoom_removeRoom, lookupRoom_insertRoom, hne]
  · intro hi
    by_cases hc : room.callee.isNone <;>
      simp [hi, clearedRoom, Room.is_empty, hc, lookupRoom_removeRoom, lookupRoom_insertRoom]
  · intro hi
    have hcl : clearedRoom room s.state.initiator = { room with callee := none } := by
      rcases hin : s.state.initiator with _ | b
      · rfl
      · cases b
        · rfl
        · exact absurd hin hi
    by_cases hc : room.caller.isNone <;>
      simp [hcl, Room.is_empty, hc, lookupRoom_removeRoom, lookupRoom_insertRoom]

/-- Claim C4, witness: tearing down the caller of room 42 while the callee
is still present keeps the room with only its caller slot cleared and drops
exactly that session from the directory. -/
theorem destroy_session_clears_matching_slot_witness :
    ∃ st2,
      destroy_session
          ⟨[(⟨42⟩, ⟨⟨42⟩, some 1, some 2⟩)],
           [⟨1, ⟨some ⟨42⟩, some true⟩⟩, ⟨2, ⟨some ⟨42⟩, some false⟩⟩]⟩
          ⟨1, ⟨some ⟨42⟩, some true⟩⟩ = some st2 ∧
      st2.sessions = [⟨2, ⟨some ⟨42⟩, some false⟩⟩] ∧
      lookupRoom st2.rooms ⟨42⟩ = some ⟨⟨42⟩, none, some 2⟩ := by
  obtain ⟨st2, ha, hb, -, hd, -⟩ :=
    destroy_session_clears_matching_slot
      ⟨[(⟨42⟩, ⟨⟨42⟩, some 1, some 2⟩)],
       [⟨1, ⟨some ⟨42⟩, some true⟩⟩, ⟨2, ⟨some ⟨42⟩, some false⟩⟩]⟩
      ⟨1, ⟨some ⟨42⟩, some true⟩⟩ ⟨42⟩ ⟨⟨42⟩, some 1, some 2⟩ rfl rfl
  exact ⟨st2, ha, hb, hd rfl⟩

/-- Claim C5: add_member unconditionally overwrites the slot matching the
role of the member, displacing any previous occupant, while leaving the room
id and the other slot unchanged; the join step built on it never changes the
handles registered in SessionDirectory, so a displaced session stays
registered there. -/
theorem add_member_unconditional_overwrite (r : Room) (m : RoomMember) :
    ((r.add_member m).id = r.id) ∧
    (∀ h2, m = RoomMember.caller h2 →
      (r.add_member m).caller = some h2 ∧ (r.add_member m).callee = r.callee) ∧
    (∀ h2, m = RoomMember.callee h2 →
      (r.add_member m).callee = some h2 ∧ (r.add_member m).caller = r.caller) ∧
    (∀ st h2 rid c, ((joinOp st h2 rid c).sessions.map Session.handle)
        = st.sessions.map Session.handle) := by
  refine ⟨?_, ?_, ?_, ?_⟩
  · cases m <;> rfl
  · intro h2 hm; subst hm; exact ⟨rfl, rfl⟩
  · intro h2 hm; subst hm; exact ⟨rfl, rfl⟩
  · intro st h2 rid c; exact joinOp_handles st h2 rid c

/-- Claim C5, witness: a second caller displaces the first occupant of the
caller slot and leaves the callee slot untouched. -/
theorem add_member_unconditional_overwrite_witness :
    ((⟨⟨7⟩, some 1, some 2⟩ : Room).add_member (RoomMember.caller 3)).caller = some 3 ∧
    ((⟨⟨7⟩, some 1, some 2⟩ : Room).add_member (RoomMember.caller 3)).callee = some 2 :=
  (add_member_unconditional_overwrite ⟨⟨7⟩, some 1, some 2⟩ (RoomMember.caller 3)).2.1 3 rfl

/-- Claim C6: when signaling processing fails with a domain error, the
dispatcher replaces the payload wholesale with an object binding ok to false
and error to the description reported by the processor, and pushes it to the
originating session with the transaction id of the envelope. -/
theorem process_error_pushed_to_origin (origin : Handle) (tx : Nat) (msg : Json)
    (process : Json → ProcessResult) (d : String)
    (h : process msg = ProcessResult.err d) :
    handle_message_async (some origin) tx (some msg) process =
      some (DispatchOutcome.pushed (PushTarget.origin origin) tx
        (Json.obj [(okKey, Json.bool false), (errorKey, Json.str d)])) := by
  simp [handle_message_async, h]

/-- Claim C6, witness at a concrete failing envelope. -/
theorem process_error_pushed_to_origin_witness :
    handle_message_async (some 1) 5 (some (Json.obj []))
        (fun _ => ProcessResult.err sampleError) =
      some (DispatchOutcome.pushed (PushTarget.origin 1) 5
        (Json.obj [(okKey, Json.bool false), (errorKey, Json.str sampleError)])) :=
  process_error_pushed_to_origin 1 5 (Json.obj [])
    (fun _ => ProcessResult.err sampleError) sampleError rfl

/-- Claim C7: on success with a resolving target peer, the published payload
carries the ok key — bound to true when the key was absent, and bound to its
previous value when already present — and push_response receives the target
peer, the transaction id of the envelope and that payload; every other field
of the payload is unchanged. -/
theorem success_payload_ok_marker (origin peer : Handle) (tx : Nat) (msg : Json)
    (process : Json → ProcessResult) (resp : Response) (fields : List (String × Json))
    (hp : process msg = ProcessResult.ok resp)
    (hpeer : resp.peerRef = some peer)
    (hpl : resp.payload = Json.obj fields) :
    (handle_message_async (some origin) tx (some msg) process =
      some (DispatchOutcome.pushed (PushTarget.peer peer) tx
        (Json.obj (entry_or_insert fields okKey (Json.bool true))))) ∧
    (lookupField (entry_or_insert fields okKey (Json.bool true)) okKey =
      some ((lookupField fields okKey).getD (Json.bool true))) ∧
    (∀ w, lookupField fields okKey = some w →
      entry_or_insert fields okKey (Json.bool true) = fields) ∧
    (∀ key2, key2 ≠ okKey →
      lookupField (entry_or_insert fields okKey (Json.bool true)) key2 =
        lookupField fields key2) := by
  refine ⟨?_, lookupField_entry_or_insert_self fields okKey (Json.bool true),
    fun w hw => entry_or_insert_of_present fields okKey (Json.bool true) w hw,
    fun key2 hk => lookupField_entry_or_insert_other fields okKey key2 (Json.bool true) hk⟩
  cases resp <;>
    simp_all [handle_message_async, Response.peerRef, Response.payload, Json.as_object_mut]

/-- Claim C7, witness: a success payload without an ok field reaches the
peer with ok bound to true. -/
theorem success_payload_ok_marker_witness :
    handle_message_async (some 1) 5 (some (Json.obj []))
        (fun _ => ProcessResult.ok (Response.call (some 2) (Json.obj []))) =
      some (DispatchOutcome.pushed (PushTarget.peer 2) 5
        (Json.obj [(okKey, Json.bool true)])) :=
  (success_payload_ok_marker 1 2 5 (Json.obj [])
    (fun _ => ProcessResult.ok (Response.call (some 2) (Json.obj [])))
    (Response.call (some 2) (Json.obj [])) [] rfl rfl rfl).1

/-- Claim C8: the SESSIONS.retain removal of teardown removes all entries
whose handle matches, keeps all entries whose handle differs, is idempotent,
and is a no-op when no entry matches. -/
theorem unregister_by_handle_removes_and_idempotent (l : List Session) (h : Handle) :
    (∀ s ∈ unregister_by_handle l h, s.handle ≠ h) ∧
    (∀ s ∈ l, s.handle ≠ h → s ∈ unregister_by_handle l h) ∧
    (unregister_by_handle (unregister_by_handle l h) h = unregister_by_handle l h) ∧
    ((∀ s ∈ l, s.handle ≠ h) → unregister_by_handle l h = l) := by
  refine ⟨?_, ?_, unregister_by_handle_idem l h, unregister_by_handle_noop l h⟩
  · intro s hs; exact ((mem_unregister_by_handle l h s).mp hs).2
  · intro s hs hne; exact (mem_unregister_by_handle l h s).mpr ⟨hs, hne⟩

/-- Claim C8, witness: removing a handle that is not present leaves the
directory unchanged. -/
theorem unregister_by_handle_removes_and_idempotent_witness :
    unregister_by_handle [⟨1, ⟨none, none⟩⟩] 2 = [⟨1, ⟨none, none⟩⟩] :=
  (unregister_by_handle_removes_and_idempotent [⟨1, ⟨none, none⟩⟩] 2).2.2.2 (by decide)

/-- Claim C9: an envelope whose session reference resolves but whose message
payload is absent makes handle_message_async panic at the unwrap of the none
message instead of returning a MessageResult; the none result is the panic
marker of the embedding. -/
theorem none_message_panics (h : Handle) (tx : Nat) (process : Json → ProcessResult) :
    handle_message_async (some h) tx none process = none := rfl

/-- Claim C10: on success with a resolving target peer, a response payload
that is not a JSON object makes handle_message_async panic at the unwrap of
as_object_mut, so such a payload never reaches push_response. -/
theorem nonobject_success_payload_panics (origin peer : Handle) (tx : Nat) (msg : Json)
    (process : Json → ProcessResult) (resp : Response)
    (hp : process msg = ProcessResult.ok resp)
    (hpeer : resp.peerRef = some peer)
    (hpl : resp.payload.as_object_mut = none) :
    handle_message_async (some origin) tx (some msg) process = none := by
  cases resp <;> simp_all [handle_message_async, Response.peerRef, Response.payload]

/-- Claim C10, witness: a null success payload targeted at a live peer makes
the dispatcher panic. -/
theorem nonobject_success_payload_panics_witness :
    handle_message_async (some 1) 5 (some (Json.obj []))
        (fun _ => ProcessResult.ok (Response.call (some 2) Json.null)) = none :=
  nonobject_success_payload_panics 1 2 5 (Json.obj [])
    (fun _ => ProcessResult.ok (Response.call (some 2) Json.null))
    (Response.call (some 2) Json.null) rfl rfl rfl

end JanusP2P
